import Mathlib

/-!
Shallow embedding of the `ScreenPilot` state-machine engine from
`clerk/gui_automation` (files `ui_state_machine/state_machine.py`,
`ui_state_machine/ai_recovery.py`, `client_actor/client_actor.py`),
together with theorems settling the frozen claims about it.

The embedding follows the Python source function by function:
`networkx.MultiDiGraph` nodes/edges become explicit lists, class-level
mutable attributes become a `PilotState` record threaded through the
functions, exceptions become `Except`/sum results, and external calls
(state classifier, recovery service, websocket, goal function) become
function parameters that the theorems quantify over.
-/

namespace ScreenPilot

/-- Edge mode tag as stored in the graph: `"planned"` and `"rollback"` edges
are registered ahead of time, `"actual"` edges are recorded live by
`_evaluate_state`. -/
inductive Mode where
  | planned
  | rollback
  | actual
deriving DecidableEq, Repr

/-- The run mode of the engine (`ScreenPilot._mode`), a
`Literal["planned", "rollback"]` in the source. -/
inductive RunMode where
  | planned
  | rollback
deriving DecidableEq, Repr

/-- A node of the state graph: `register_state` stores the class name,
description and the two allowance flags as node attributes. -/
structure Node where
  name : String
  description : String
  start_allowed : Bool
  end_allowed : Bool
deriving DecidableEq, Repr

/-- An edge of the `MultiDiGraph`: `add_edge(from, to, key=key, func=...,
condition=..., mode=...)`.  Actual edges (added by `_evaluate_state`) carry
no `func` and no `condition`, hence the `Option` on `funcName`. -/
structure Edge where
  src : String
  dst : String
  key : String
  mode : Mode
  funcName : Option String
  condition : Option String
deriving DecidableEq, Repr

/-- The state graph `ScreenPilot._graph` (a `networkx.MultiDiGraph`):
nodes keyed by name, multi-edges keyed by `(src, dst, key)`. -/
structure Graph where
  nodes : List Node
  edges : List Edge
deriving DecidableEq, Repr

def Graph.empty : Graph := ⟨[], []⟩

/-- `name in graph.nodes` membership test of networkx. -/
def Graph.hasNode (g : Graph) (name : String) : Bool :=
  g.nodes.any (fun n => n.name == name)

/-- `networkx` `add_node`: if a node with the same name exists its
attributes are updated in place, otherwise the node is appended.  No
error is ever reported for an existing name. -/
def Graph.addNode (g : Graph) (n : Node) : Graph :=
  if g.hasNode n.name then
    { g with nodes := g.nodes.map (fun m => if m.name == n.name then n else m) }
  else
    { g with nodes := g.nodes ++ [n] }

/-- `networkx` `add_edge` on a `MultiDiGraph`: an edge with the same
`(src, dst, key)` triple is replaced, otherwise the edge is appended. -/
def Graph.addEdge (g : Graph) (e : Edge) : Graph :=
  let sameKey := fun e' : Edge => e'.src == e.src && e'.dst == e.dst && e'.key == e.key
  if g.edges.any sameKey then
    { g with edges := g.edges.map (fun e' => if sameKey e' then e else e') }
  else
    { g with edges := g.edges ++ [e] }

/-- `graph.out_edges(from_state, keys=True, data=True)`: all edges leaving
`src`, whatever their mode. -/
def Graph.outEdges (g : Graph) (src : String) : List Edge :=
  g.edges.filter (fun e => e.src == src)

/-- `ScreenPilot.register_state`: translates to
`cls._graph.add_node(state_cls.__name__, ...)`.  The source raises nothing
and performs no duplicate check, so the embedding always returns `.ok`;
the `Except` result records that no exception escapes to the caller. -/
def register_state (g : Graph) (n : Node) : Except String Graph :=
  .ok (g.addNode n)

/-- `ScreenPilot.register_transition` (the body of `decorator`, after the
wrapped function has been built): first the uniqueness check over
`out_edges(from_state)` — an existing edge with the same mode where either
the existing edge or the new registration has no condition raises
`ValueError` — then the edge is added only when both endpoints are
registered nodes; otherwise the source merely logs an error and returns
the wrapper without raising. -/
def register_transition (g : Graph) (funcName : String) (from_state to_state : String)
    (mode : Mode) (condition : Option String) : Except String Graph :=
  if (g.outEdges from_state).any
      (fun e => e.mode == mode && (e.condition.isNone || condition.isNone)) then
    .error "ValueError: already registered; provide a condition function"
  else if g.hasNode from_state ∧ g.hasNode to_state then
    .ok (g.addEdge
      { src := from_state, dst := to_state
        key := funcName ++ "_from_" ++ from_state ++ "_to_" ++ to_state ++
          (match mode with | .planned => "_planned" | .rollback => "_rollback" | .actual => "_actual")
        mode := mode, funcName := some funcName, condition := condition })
  else
    .ok g

/-- A registered transition function: Python compares the function objects
themselves (`transition_history.count(item)`), and reads `__name__` for
reporting, so the embedding keeps an identity alongside the name. -/
structure Func where
  id : Nat
  name : String
deriving DecidableEq, Repr

/-- `ScreenPilot._find_repeated_transitions`: the names of the history
entries whose transition function occurs more than once in the history. -/
def find_repeated_transitions (transition_history : List Func) : List String :=
  (transition_history.filter (fun item => decide (1 < transition_history.count item))).map
    Func.name

/-- `ScreenPilot._find_repeated_states`: the history entries whose state
occurs more than once in the state history. -/
def find_repeated_states (state_history : List String) : List String :=
  state_history.filter (fun item => decide (1 < state_history.count item))

/-- `ScreenPilot._find_unplanned_transitions`: actual edges (as `(u, v)`
pairs) that have no planned edge with the same endpoints. -/
def find_unplanned_transitions (g : Graph) : List (String × String) :=
  let actual_edges := (g.edges.filter (fun e => e.mode == Mode.actual)).map
    (fun e => (e.src, e.dst))
  let planned_edges := (g.edges.filter (fun e => e.mode == Mode.planned)).map
    (fun e => (e.src, e.dst))
  actual_edges.filter (fun edge => !(planned_edges.contains edge))

/-- The three tolerance counters of `ScreenPilot` (class attributes
`tolerate_unplanned_transitions`, `tolerate_repeat_transitions`,
`tolerate_repeat_states`). -/
structure ToleranceConfig where
  tolerate_unplanned_transitions : Nat
  tolerate_repeat_transitions : Nat
  tolerate_repeat_states : Nat
deriving DecidableEq, Repr

/-- The three anti-pattern exceptions raised by `_find_anti_patterns`
(`UnplannedTransitionsError`, `RepeatTransitions`, `RepeatStatesError`). -/
inductive AntiPatternError where
  | unplannedTransitions
  | repeatTransitions
  | repeatStates
deriving DecidableEq, Repr

/-- `ScreenPilot._find_anti_patterns`: the three checks in source order.
The unplanned check fires when the unplanned count exceeds its tolerance;
the repeated-transitions check when the repeated count exceeds
tolerance + 1 (the `+1` is in the source, commented "to account for the
first transition"); the repeated-states check when the repeated count
exceeds its tolerance.  The force-close of the remote process on
`RepeatStatesError` is best-effort (failures logged, not raised) and does
not affect the raised error, so it is omitted. -/
def find_anti_patterns (cfg : ToleranceConfig) (g : Graph) (transition_history : List Func)
    (state_history : List String) : Except AntiPatternError Unit :=
  if cfg.tolerate_unplanned_transitions < (find_unplanned_transitions g).length then
    .error .unplannedTransitions
  else if cfg.tolerate_repeat_transitions + 1 < (find_repeated_transitions transition_history).length then
    .error .repeatTransitions
  else if cfg.tolerate_repeat_states < (find_repeated_states state_history).length then
    .error .repeatStates
  else
    .ok ()

/-- The AI recovery agent (`CourseCorrectorV1`): for the engine-level
claims only its accumulated feedback (`latest_feedback`) is relevant. -/
structure Agent where
  feedback : Option String
deriving DecidableEq, Repr

/-- The details captured by `_action_line_from_exc()`: full traceback,
the line holding the failing UI action call, and the matched action
fragment. -/
structure RuntimeErrorDetails where
  traceback : String
  actionLine : String
  actionFragment : String
deriving DecidableEq, Repr

/-- The class-level mutable attributes of `ScreenPilot` threaded through
the engine as an explicit state record. -/
structure PilotState where
  graph : Graph
  transitionHistory : List Func
  stateHistory : List String
  mode : RunMode
  runtimeErrorDetails : Option RuntimeErrorDetails
  aiRecoveryAgent : Option Agent
  currentState : Option String
  finalState : Option String
  exitReason : Option String
  actedSinceStateEval : Bool
  nextTargetState : Option String
deriving DecidableEq, Repr

/-- The scenario argument of `_attempt_ai_recovery`
(`Literal["exit", "runtime_error", "unexpected_state"]`). -/
inductive Scenario where
  | exitRun
  | runtimeError
  | unexpectedState
deriving DecidableEq, Repr

/-- The behavior of a call to `ScreenPilot._attempt_ai_recovery`, seen from
its call sites: it takes the scenario and optional error details, mutates
the engine state (agent initialization/feedback, `_acted_since_state_eval`)
and either returns normally (`none`) or raises (`some message`, a
`CourseCorrectionImpossible`).  The engine-level theorems quantify over
this behavior since the recovery loop drives opaque remote calls. -/
def RecoveryFn : Type :=
  Scenario → Option String → PilotState → PilotState × Option String

/-- `ScreenPilot._act_on_start`: clears exit reason, current and final
state at the top of `run()`. -/
def act_on_start (s : PilotState) : PilotState :=
  { s with exitReason := none, currentState := none, finalState := none }

/-- The `finally` block of `ScreenPilot._act_on_completed`: records the
final state, clears both histories, removes the actual edges from the
graph, resets the run mode, the captured runtime-error details, the
recovery agent and the next target state.  It runs whether or not the
end-state check raised. -/
def cleanupAfterRun (s : PilotState) : PilotState :=
  { s with
    finalState := s.currentState
    transitionHistory := []
    stateHistory := []
    graph := { s.graph with edges := s.graph.edges.filter (fun e => !(e.mode == Mode.actual)) }
    mode := RunMode.planned
    runtimeErrorDetails := none
    aiRecoveryAgent := none
    nextTargetState := none }

/-- `ScreenPilot._act_on_completed`: `try: _ensure_allowed_end_state()`,
re-raising any exception, `finally:` the cleanup.  The end-state check
(`ensure`) re-evaluates state and may attempt exit recovery, both driven
by opaque remote calls, so it is a parameter: it transforms the state and
optionally raises (`some message`). -/
def act_on_completed (ensure : PilotState → PilotState × Option String) (s : PilotState) :
    PilotState × Option String :=
  let r := ensure s
  (cleanupAfterRun r.1, r.2)

/-- How the `while not cls._exit_reason` body of `run()` terminates:
falling out of the loop normally, a `BusinessException`/`SuccessfulCompletion`
(caught, stored as the exit reason), or any other exception (logged and
re-raised). -/
inductive LoopExit where
  | normal
  | outcome (o : String)
  | exc (e : String)
deriving DecidableEq, Repr

/-- The observable result of `run()`: a returned exit reason or a
propagated exception. -/
inductive RunResult where
  | returned (r : Option String)
  | raised (e : String)
deriving DecidableEq, Repr

/-- `ScreenPilot.run`: `_act_on_start`, then the loop (a parameter, since
its body drives the remote classifier and actions), then the exception
handling (`except (BusinessException, SuccessfulCompletion)` stores the
exit reason; any other exception is re-raised) with
`finally: cls._act_on_completed()`.  An exception raised by the end-state
check inside `_act_on_completed` supersedes the pending return or
exception, as a Python `finally` does. -/
def run (loop : PilotState → PilotState × LoopExit)
    (ensure : PilotState → PilotState × Option String) (s : PilotState) :
    RunResult × PilotState :=
  let s0 := act_on_start s
  let r := loop s0
  let s2 := match r.2 with
    | .outcome o => { r.1 with exitReason := some o }
    | _ => r.1
  let c := act_on_completed ensure s2
  let result := match c.2 with
    | some e => RunResult.raised e
    | none =>
      match r.2 with
      | .exc e => RunResult.raised e
      | .outcome o => RunResult.returned (some o)
      | .normal => RunResult.returned s2.exitReason
  (result, c.1)

/-- Result of the error-state handling step of the run loop (source lines
following goal evaluation): restart the loop (`continue`) after recovery,
propagate an exception raised by recovery, or fall through to transition
selection. -/
inductive StepResult where
  | restartLoop (s : PilotState)
  | recoveryRaised (e : String) (s : PilotState)
  | proceed (s : PilotState)
deriving DecidableEq, Repr

/-- The error-state handling step of `run()`:
`if cls._current_state == "Error" and cls.ai_recovery:` invoke
`_attempt_ai_recovery(scenario="unexpected_state", ...)` and `continue`;
`else: cls._ai_recovery_agent = None` and fall through to transition
selection. -/
def error_state_step (ai_recovery : Bool) (recovery : RecoveryFn) (s : PilotState) :
    StepResult :=
  if s.currentState == some "Error" && ai_recovery then
    let r := recovery Scenario.unexpectedState none s
    match r.2 with
    | none => .restartLoop r.1
    | some e => .recoveryRaised e r.1
  else
    .proceed { s with aiRecoveryAgent := none }

/-- What the wrapped transition function does when invoked (after the
argument filtering): return a value, or raise one of the exception classes
the wrapper distinguishes — `BusinessException`, `RuntimeError` (carrying
the details `_action_line_from_exc()` will capture), `RollbackCompleted`,
or any other exception (which the wrapper does not catch). -/
inductive TransitionBehavior where
  | returns (v : Nat)
  | raisesBusiness (msg : String)
  | raisesRuntime (d : RuntimeErrorDetails)
  | raisesRollbackCompleted
  | raisesOther (msg : String)
deriving DecidableEq, Repr

/-- An exception escaping the wrapper to its caller. -/
inductive PropagatedExc where
  | business (msg : String)
  | rollbackCompleted (trace : Option String)
  | recoveryExc (msg : String)
  | rawRuntime (d : RuntimeErrorDetails)
  | other (msg : String)
deriving DecidableEq, Repr

/-- Outcome of one call to the wrapped transition function. -/
inductive WrapperResult where
  | returned (v : Option Nat) (s : PilotState)
  | raised (e : PropagatedExc) (s : PilotState)
deriving DecidableEq, Repr

/-- The `wrapper` closure installed by `register_transition`:
- a `BusinessException` is logged and re-raised;
- a `RuntimeError` leads to `cls._runtime_error_details = _action_line_from_exc()`,
  then `cls._attempt_ai_recovery(scenario="runtime_error",
  error_details=cls._runtime_error_details[1])`, then `cls._mode = "rollback"`;
  the handler ends without re-raising, so the wrapper returns `None` —
  unless the recovery call itself raises, in which case that exception
  propagates and the mode assignment is never reached;
- a `RollbackCompleted` is re-raised as `type(e)(cls._runtime_error_details[0])`,
  carrying the previously captured traceback;
- any other exception is not caught and propagates as raised. -/
def wrapper (recovery : RecoveryFn) (behavior : TransitionBehavior) (s : PilotState) :
    WrapperResult :=
  match behavior with
  | .returns v => .returned (some v) s
  | .raisesBusiness m => .raised (.business m) s
  | .raisesRuntime d =>
    let s1 := { s with runtimeErrorDetails := some d }
    let r := recovery Scenario.runtimeError (some d.actionLine) s1
    match r.2 with
    | none => .returned none { r.1 with mode := RunMode.rollback }
    | some m => .raised (.recoveryExc m) r.1
  | .raisesRollbackCompleted =>
    .raised (.rollbackCompleted (s.runtimeErrorDetails.map RuntimeErrorDetails.traceback)) s
  | .raisesOther m => .raised (.other m) s

/-- `ActionString` (from `ui_state_machine/models.py`) as consumed by the
recovery loop: the action expression, the interrupt flag and the agent's
observation text. -/
structure ActionS where
  action_string : String
  interrupt_process : Bool
  observation : Option String
deriving DecidableEq, Repr

/-- How `eval(action.action_string)` ends inside `_attempt_ai_recovery`:
success, one of the three caught-and-fed-back exception groups
(`AttributeError`/`SyntaxError`/`ValidationError`/`NameError`,
`RuntimeError`, `PerformActionException`), or any other exception, which
escapes to the outer handler and breaks the loop. -/
inductive EvalOutcome where
  | ok
  | feedbackError (msg : String)
  | runtimeError
  | performActionError
  | otherError
deriving DecidableEq, Repr

/-- One attempt of the recovery loop as seen from the loop body:
`get_corrective_actions()` raises (leaving `action = None`), or yields an
action whose evaluation ends as described by `EvalOutcome`. -/
inductive Attempt where
  | getActionsRaises
  | yields (a : ActionS) (ev : EvalOutcome)
deriving DecidableEq, Repr

/-- Fixed message of the `CourseCorrectionImpossible` raised when no
action was produced on an attempt. -/
def noActionGeneratedMsg : String :=
  "No course correction action could be generated, see logs for details."

/-- Fixed feedback fed back on a `RuntimeError` during recovery. -/
def targetNotUniqueMsg : String :=
  "The target could not be uniquely identified. Try using different anchors or target."

/-- Fixed feedback fed back on a `PerformActionException` during recovery. -/
def actionNotPerformedMsg : String := "The action could not be performed."

/-- Python's `str.startswith`, on the character list of the string. -/
def startswith (s pre : String) : Bool :=
  s.data.take pre.data.length == pre.data

/-- How the `while attempts_made < attempts` loop of
`_attempt_ai_recovery` terminates. -/
inductive LoopEnd where
  | exhausted
  | broke
  | returnedNoAction
  | raisedImpossible (obs : Option String)
deriving DecidableEq, Repr

/-- The `while attempts_made < attempts` loop of `_attempt_ai_recovery`,
one constructor case per control path of the body.  The per-iteration
`finally` block runs on every path out of the `try`: with no action it
raises `CourseCorrectionImpossible(noActionGeneratedMsg)`; with an action
flagged `interrupt_process` it raises
`CourseCorrectionImpossible(action.observation)`; otherwise the pending
`continue`/`break`/`return` proceeds.  `add_feedback` replaces
`latest_feedback` on the three fed-back evaluation failures. -/
def runAttempts (script : Nat → Attempt) : Nat → Nat → Agent → Agent × LoopEnd
  | _, 0, ag => (ag, .exhausted)
  | idx, fuel + 1, ag =>
    match script idx with
    | .getActionsRaises => (ag, .raisedImpossible (some noActionGeneratedMsg))
    | .yields a ev =>
      if startswith a.action_string "NoAction" then
        if a.interrupt_process then (ag, .raisedImpossible a.observation)
        else (ag, .returnedNoAction)
      else
        match ev with
        | .ok =>
          if a.interrupt_process then (ag, .raisedImpossible a.observation)
          else (ag, .broke)
        | .feedbackError m =>
          let ag' : Agent := { feedback := some m }
          if a.interrupt_process then (ag', .raisedImpossible a.observation)
          else runAttempts script (idx + 1) fuel ag'
        | .runtimeError =>
          let ag' : Agent := { feedback := some targetNotUniqueMsg }
          if a.interrupt_process then (ag', .raisedImpossible a.observation)
          else runAttempts script (idx + 1) fuel ag'
        | .performActionError =>
          let ag' : Agent := { feedback := some actionNotPerformedMsg }
          if a.interrupt_process then (ag', .raisedImpossible a.observation)
          else runAttempts script (idx + 1) fuel ag'
        | .otherError =>
          if a.interrupt_process then (ag, .raisedImpossible a.observation)
          else (ag, .broke)

/-- How `_attempt_ai_recovery` exits once an agent is held. -/
inductive RecoveryExit where
  | finished
  | noActionReturn
  | raisedImpossible (obs : Option String)
deriving DecidableEq, Repr

/-- The attempt phase of `_attempt_ai_recovery` with an initialized agent:
the attempt loop followed by `cls._ai_recovery_agent.reset_feedback()`.
The reset is the statement directly after the `while` loop, so it runs
only when the loop falls through (`break` or budget exhaustion) — the
sentinel `return None` and a raised `CourseCorrectionImpossible` leave the
function without reaching it. -/
def attempt_ai_recovery_loop (script : Nat → Attempt) (attempts : Nat) (ag : Agent) :
    Agent × RecoveryExit :=
  match runAttempts script 0 attempts ag with
  | (ag', .exhausted) => ({ ag' with feedback := none }, .finished)
  | (ag', .broke) => ({ ag' with feedback := none }, .finished)
  | (ag', .returnedNoAction) => (ag', .noActionReturn)
  | (ag', .raisedImpossible obs) => (ag', .raisedImpossible obs)

end ScreenPilot

namespace ClientActor

/-- A message on the websocket as the receiver experiences it: how long it
takes to arrive and its payload. -/
structure RecvEvent where
  delay : Nat
  payload : String
deriving DecidableEq, Repr

/-- `PerformActionResponse` from `client_actor/model.py` (field
`return_value: Optional[Any]` is kept as an opaque string). -/
structure PerformActionResponse where
  id : Option String
  state : String
  message : Option String
  return_value : Option String
  screen_b64 : Option String
deriving DecidableEq, Repr

/-- Outcome of `_perform_action_ws`: the parsed response, a
`RuntimeError(msg)`, or a failure of `json.loads`/model validation on the
second message. -/
inductive WsOutcome where
  | ok (r : PerformActionResponse)
  | runtimeError (msg : String)
  | parseError
deriving DecidableEq, Repr

/-- Message of the `RuntimeError` raised on `asyncio.TimeoutError` (either
phase). -/
def ackTimeoutMsg : String := "The ack message did not arrive."

/-- Message of the `RuntimeError` raised on a non-`"OK"` acknowledgement. -/
def ackMismatchMsg : String := "Received ACK != OK"

/-- Message of the `RuntimeError` raised when the websocket is absent. -/
def wsNotInitiatedMsg : String := "The Websocket has not been initiated."

/-- `asyncio.wait_for(recv(), timeout)`: the payload if it arrives within
the timeout, otherwise a timeout (`none`). -/
def wait_for (timeout : Nat) (e : RecvEvent) : Option String :=
  if e.delay ≤ timeout then some e.payload else none

/-- `_perform_action_ws`: send the payload, await the acknowledgement with
a 90-second timeout; if it equals `"OK"`, await the result message with
the same 90-second timeout and return
`PerformActionResponse(**json.loads(...))`; any other acknowledgement
raises `RuntimeError("Received ACK != OK")`; an `asyncio.TimeoutError`
from either `wait_for` raises `RuntimeError("The ack message did not
arrive.")`.  Parsing of the second message is a parameter. -/
def perform_action_ws (parse : String → Option PerformActionResponse) (wsUp : Bool)
    (ev1 ev2 : RecvEvent) : WsOutcome :=
  if wsUp then
    match wait_for 90 ev1 with
    | none => .runtimeError ackTimeoutMsg
    | some ack =>
      if ack = "OK" then
        match wait_for 90 ev2 with
        | none => .runtimeError ackTimeoutMsg
        | some action_info =>
          match parse action_info with
          | some r => .ok r
          | none => .parseError
      else .runtimeError ackMismatchMsg
  else .runtimeError wsNotInitiatedMsg

end ClientActor

namespace Kwargs

/-- The argument filtering performed identically in the transition
`wrapper` and in `_evaluate_goal_function`:
`{k: v for k, v in kwargs.items() if k in supported_params}` keeps exactly
the caller-supplied keyword arguments whose name appears in the callable's
signature. -/
def filtered_kwargs (supported_params : List String) (kwargs : List (String × String)) :
    List (String × String) :=
  kwargs.filter (fun kv => decide (kv.1 ∈ supported_params))

/-- The `TypeError` Python raises when a callable (without a `**kwargs`
catch-all) receives a keyword argument absent from its signature. -/
inductive CallError where
  | unexpectedKeywordArgument (name : String)
deriving DecidableEq, Repr

/-- Invoking a callable with declared parameter names `supported_params`
on keyword arguments `kwargs`: Python rejects the call iff some keyword is
not a declared parameter. -/
def invoke_with_kwargs (supported_params : List String) (kwargs : List (String × String)) :
    Except CallError Unit :=
  match kwargs.find? (fun kv => !(decide (kv.1 ∈ supported_params))) with
  | some kv => .error (.unexpectedKeywordArgument kv.1)
  | none => .ok ()

end Kwargs

/-! ## Theorems -/

namespace ScreenPilot

theorem mem_addEdge (g : Graph) (e : Edge) : e ∈ (g.addEdge e).edges := by
  unfold Graph.addEdge
  by_cases h : g.edges.any (fun e' => e'.src == e.src && e'.dst == e.dst && e'.key == e.key) = true
  · simp only [h, if_true]
    obtain ⟨x, hx, hpx⟩ := List.any_eq_true.mp h
    exact List.mem_map.mpr ⟨x, hx, by simp [hpx]⟩
  · simp only [h, if_false]
    simp

theorem register_transition_error_of_dup (g : Graph) (fn s d : String) (m : Mode)
    (c : Option String)
    (h : ∃ e ∈ g.edges, e.src = s ∧ e.mode = m ∧ (e.condition = none ∨ c = none)) :
    register_transition g fn s d m c =
      .error "ValueError: already registered; provide a condition function" := by
  obtain ⟨e, he, hsrc, hmode, hcond⟩ := h
  have hany : (g.outEdges s).any
      (fun e => e.mode == m && (e.condition.isNone || c.isNone)) = true := by
    refine List.any_eq_true.mpr ⟨e, ?_, ?_⟩
    · exact List.mem_filter.mpr ⟨he, by simp [hsrc]⟩
    · simp only [Bool.and_eq_true, beq_iff_eq, Bool.or_eq_true, Option.isNone_iff_eq_none]
      exact ⟨hmode, hcond⟩
  unfold register_transition
  simp [hany]

/-- C1: registering a second edge with the same from-state and mode,
where either the already-registered edge or the new edge has no guard
condition, raises a `ValueError` at registration time (no edge is added,
since the error result carries no graph); in particular, once an
unconditioned planned edge out of a state has been registered between
defined states, registering any further unconditioned planned edge out of
that state fails at registration time. -/
theorem register_transition_unconditioned_uniqueness :
    (∀ (g : Graph) (fn s d : String) (m : Mode) (c : Option String),
      (∃ e ∈ g.edges, e.src = s ∧ e.mode = m ∧ (e.condition = none ∨ c = none)) →
      ∃ msg, register_transition g fn s d m c = .error msg)
    ∧ (∀ (g : Graph) (fn s d fn2 d2 : String) (g' : Graph),
      g.hasNode s = true → g.hasNode d = true →
      register_transition g fn s d Mode.planned none = .ok g' →
      ∃ msg, register_transition g' fn2 s d2 Mode.planned none = .error msg) := by
  constructor
  · intro g fn s d m c h
    exact ⟨_, register_transition_error_of_dup g fn s d m c h⟩
  · intro g fn s d fn2 d2 g' hs hd hok
    unfold register_transition at hok
    split at hok
    · simp at hok
    · split at hok
      · have hg' : g' = g.addEdge
            { src := s, dst := d, key := fn ++ "_from_" ++ s ++ "_to_" ++ d ++ "_planned"
              mode := Mode.planned, funcName := some fn, condition := none } := by
          cases hok; rfl
        refine ⟨_, register_transition_error_of_dup g' fn2 s d2 Mode.planned none ?_⟩
        refine ⟨{ src := s, dst := d, key := fn ++ "_from_" ++ s ++ "_to_" ++ d ++ "_planned"
                  mode := Mode.planned, funcName := some fn, condition := none },
          ?_, rfl, rfl, Or.inl rfl⟩
        rw [hg']
        exact mem_addEdge _ _
      · next h2 => exact absurd (⟨hs, hd⟩ : g.hasNode s = true ∧ g.hasNode d = true) h2

/-- Witness for C1 at concrete inputs: a graph with states `A`, `B` and an
unconditioned planned edge `A → B` rejects a further unconditioned planned
edge out of `A`; and registering `t` then `t2` as unconditioned planned
transitions out of `A` errors on the second registration. -/
theorem register_transition_unconditioned_uniqueness_witness :
    (∃ msg, register_transition
      ⟨[⟨"A", "a", true, true⟩, ⟨"B", "b", true, true⟩],
       [⟨"A", "B", "t_from_A_to_B_planned", Mode.planned, some "t", none⟩]⟩
      "t2" "A" "C" Mode.planned none = .error msg)
    ∧ (∃ msg, register_transition
      ⟨[⟨"A", "a", true, true⟩, ⟨"B", "b", true, true⟩],
       [⟨"A", "B", "t" ++ "_from_" ++ "A" ++ "_to_" ++ "B" ++ "_planned",
         Mode.planned, some "t", none⟩]⟩
      "t2" "A" "B" Mode.planned none = .error msg) := by
  constructor
  · exact register_transition_unconditioned_uniqueness.1
      ⟨[⟨"A", "a", true, true⟩, ⟨"B", "b", true, true⟩],
       [⟨"A", "B", "t_from_A_to_B_planned", Mode.planned, some "t", none⟩]⟩
      "t2" "A" "C" Mode.planned none
      ⟨⟨"A", "B", "t_from_A_to_B_planned", Mode.planned, some "t", none⟩,
        by simp, rfl, rfl, Or.inr rfl⟩
  · exact register_transition_unconditioned_uniqueness.2
      ⟨[⟨"A", "a", true, true⟩, ⟨"B", "b", true, true⟩], []⟩
      "t" "A" "B" "t2" "B" _ rfl rfl rfl

/-- C8 (evaluation at the failing input): registering a transition whose
endpoints are not registered states does not raise — the source only logs
`"Error: Transition ... involves undefined state."` — and adds no edge,
contradicting the claim (and the function's own docstring, which documents
`Raises: ValueError`). -/
theorem register_transition_undefined_state_no_error :
    register_transition Graph.empty "go" "A" "B" Mode.planned none = .ok Graph.empty
    ∧ Graph.empty.hasNode "A" = false ∧ Graph.empty.hasNode "B" = false :=
  ⟨rfl, rfl, rfl⟩

/-- C9 (counterexample): registering state identifier `A` a second time
does not raise — `networkx.add_node` silently updates the node in place —
so the second `register_state` succeeds and replaces the stored
description of `A`. -/
theorem register_state_duplicate_counterexample :
    (Graph.empty.addNode ⟨"A", "first", true, true⟩).hasNode "A" = true
    ∧ register_state (Graph.empty.addNode ⟨"A", "first", true, true⟩)
        ⟨"A", "second", false, true⟩ =
      .ok ⟨[⟨"A", "second", false, true⟩], []⟩ := ⟨rfl, rfl⟩

/-- C9 (amended): `register_state` never fails; for a fresh identifier the
node is appended, and for an existing identifier the call succeeds and
silently updates the node in place — the list of node names is unchanged
and the new attributes are stored. -/
theorem register_state_duplicate_updates_in_place (g : Graph) (n : Node) :
    register_state g n = .ok (g.addNode n)
    ∧ (g.hasNode n.name = true →
        (g.addNode n).nodes.map Node.name = g.nodes.map Node.name
        ∧ n ∈ (g.addNode n).nodes)
    ∧ (g.hasNode n.name = false → (g.addNode n).nodes = g.nodes ++ [n]) := by
  refine ⟨rfl, ?_, ?_⟩
  · intro h
    constructor
    · unfold Graph.addNode
      rw [if_pos h]
      simp only [List.map_map]
      refine List.map_congr_left ?_
      intro m _
      by_cases hm : m.name == n.name
      · simp [hm, Function.comp]
        have := beq_iff_eq.mp hm
        simp [this]
      · simp [hm, Function.comp]
    · unfold Graph.hasNode at h
      obtain ⟨m, hm, hname⟩ := List.any_eq_true.mp h
      unfold Graph.addNode
      rw [if_pos]
      · exact List.mem_map.mpr ⟨m, hm, by simp [hname]⟩
      · exact List.any_eq_true.mpr ⟨m, hm, hname⟩
  · intro h
    unfold Graph.addNode
    rw [if_neg]
    simp [h]

/-- Witness for C9's amended theorem: both branches at concrete inputs. -/
theorem register_state_duplicate_updates_in_place_witness :
    ((Graph.empty.addNode ⟨"A", "first", true, true⟩).addNode
        ⟨"A", "second", false, true⟩).nodes.map Node.name =
      (Graph.empty.addNode ⟨"A", "first", true, true⟩).nodes.map Node.name
    ∧ (Graph.empty.addNode ⟨"B", "b", true, true⟩).nodes =
      Graph.empty.nodes ++ [⟨"B", "b", true, true⟩] := by
  constructor
  · exact ((register_state_duplicate_updates_in_place
      (Graph.empty.addNode ⟨"A", "first", true, true⟩) ⟨"A", "second", false, true⟩).2.1 rfl).1
  · exact (register_state_duplicate_updates_in_place
      Graph.empty ⟨"B", "b", true, true⟩).2.2 rfl

theorem find_repeated_transitions_replicate (n : Nat) (f : Func) :
    (find_repeated_transitions (List.replicate n f)).length = if 1 < n then n else 0 := by
  unfold find_repeated_transitions
  rw [List.length_map]
  by_cases h : 1 < n
  · rw [if_pos h]
    have hfil : (List.replicate n f).filter
        (fun item => decide (1 < (List.replicate n f).count item)) = List.replicate n f := by
      apply List.filter_eq_self.mpr
      intro a ha
      rw [List.eq_of_mem_replicate ha, List.count_replicate_self]
      exact decide_eq_true h
    rw [hfil, List.length_replicate]
  · rw [if_neg h]
    have hfil : (List.replicate n f).filter
        (fun item => decide (1 < (List.replicate n f).count item)) = [] := by
      apply List.filter_eq_nil_iff.mpr
      intro a ha
      rw [List.eq_of_mem_replicate ha, List.count_replicate_self]
      simpa using h
    rw [hfil, List.length_nil]

/-- C2: given repeat-transition tolerance `T` and no unplanned-transition
overflow (that check runs first), the anti-pattern scan raises
`RepeatTransitions` exactly when the number of history entries whose
transition function occurs more than once exceeds `T + 1`; in particular
a history of the same transition function `T + 2` times (within the
25-entry history bound) triggers it, while `T + 1` occurrences does not. -/
theorem find_anti_patterns_repeat_transitions_threshold (cfg : ToleranceConfig) (g : Graph)
    (sh : List String)
    (hU : (find_unplanned_transitions g).length ≤ cfg.tolerate_unplanned_transitions) :
    (∀ th : List Func,
      find_anti_patterns cfg g th sh = .error .repeatTransitions ↔
        cfg.tolerate_repeat_transitions + 1 < (find_repeated_transitions th).length)
    ∧ (∀ f : Func, cfg.tolerate_repeat_transitions + 2 ≤ 25 →
        find_anti_patterns cfg g
          (List.replicate (cfg.tolerate_repeat_transitions + 2) f) sh =
          .error .repeatTransitions)
    ∧ (∀ f : Func,
        find_anti_patterns cfg g
          (List.replicate (cfg.tolerate_repeat_transitions + 1) f) sh ≠
          .error .repeatTransitions) := by
  have hmain : ∀ th : List Func,
      find_anti_patterns cfg g th sh = .error .repeatTransitions ↔
        cfg.tolerate_repeat_transitions + 1 < (find_repeated_transitions th).length := by
    intro th
    unfold find_anti_patterns
    rw [if_neg (Nat.not_lt.mpr hU)]
    by_cases h2 : cfg.tolerate_repeat_transitions + 1 < (find_repeated_transitions th).length
    · simp [h2]
    · rw [if_neg h2]
      by_cases h3 : cfg.tolerate_repeat_states < (find_repeated_states sh).length
      · simp [h3, h2]
      · simp [h3, h2]
  refine ⟨hmain, ?_, ?_⟩
  · intro f _
    refine (hmain _).mpr ?_
    rw [find_repeated_transitions_replicate]
    rw [if_pos (by omega)]
    omega
  · intro f
    intro hcontra
    have := (hmain _).mp hcontra
    rw [find_repeated_transitions_replicate] at this
    by_cases h1 : 1 < cfg.tolerate_repeat_transitions + 1
    · rw [if_pos h1] at this; omega
    · rw [if_neg h1] at this; omega

/-- Witness for C2 at concrete inputs: tolerance 5, empty graph, empty
state history; seven identical transitions trigger `RepeatTransitions`,
six do not. -/
theorem find_anti_patterns_repeat_transitions_threshold_witness :
    find_anti_patterns ⟨5, 5, 5⟩ Graph.empty (List.replicate 7 ⟨0, "step"⟩) [] =
      .error .repeatTransitions
    ∧ find_anti_patterns ⟨5, 5, 5⟩ Graph.empty (List.replicate 6 ⟨0, "step"⟩) [] ≠
      .error .repeatTransitions := by
  refine ⟨?_, ?_⟩
  · exact (find_anti_patterns_repeat_transitions_threshold ⟨5, 5, 5⟩ Graph.empty []
      (by decide)).2.1 ⟨0, "step"⟩ (by decide)
  · exact (find_anti_patterns_repeat_transitions_threshold ⟨5, 5, 5⟩ Graph.empty []
      (by decide)).2.2 ⟨0, "step"⟩

theorem cleanupAfterRun_clean (t : PilotState) :
    ((cleanupAfterRun t).graph.edges.filter (fun e => e.mode == Mode.actual)) = []
    ∧ (cleanupAfterRun t).transitionHistory = []
    ∧ (cleanupAfterRun t).stateHistory = []
    ∧ (cleanupAfterRun t).mode = RunMode.planned
    ∧ (cleanupAfterRun t).runtimeErrorDetails = none
    ∧ (cleanupAfterRun t).aiRecoveryAgent = none := by
  refine ⟨?_, rfl, rfl, rfl, rfl, rfl⟩
  apply List.filter_eq_nil_iff.mpr
  intro a ha
  have h2 := (List.mem_filter.mp ha).2
  simp only [Bool.not_eq_eq_eq_not, Bool.not_true] at h2
  simp [h2]

/-- C3: after every `run()` call — whatever the loop does (success,
business outcome, anti-pattern abort, any other exception) and whatever
the end-state check does (including raising) — the resulting state has no
actual edges, empty transition and state histories, run mode `planned`,
cleared runtime-error details and no recovery agent. -/
theorem run_resets_state (loop : PilotState → PilotState × LoopExit)
    (ensure : PilotState → PilotState × Option String) (s : PilotState) :
    ((run loop ensure s).2.graph.edges.filter (fun e => e.mode == Mode.actual)) = []
    ∧ (run loop ensure s).2.transitionHistory = []
    ∧ (run loop ensure s).2.stateHistory = []
    ∧ (run loop ensure s).2.mode = RunMode.planned
    ∧ (run loop ensure s).2.runtimeErrorDetails = none
    ∧ (run loop ensure s).2.aiRecoveryAgent = none := by
  have hrun : (run loop ensure s).2 =
      cleanupAfterRun (ensure (match (loop (act_on_start s)).2 with
        | .outcome o => { (loop (act_on_start s)).1 with exitReason := some o }
        | _ => (loop (act_on_start s)).1)).1 := rfl
  rw [hrun]
  exact cleanupAfterRun_clean _

/-- C4: on a run-loop iteration whose classified state is the reserved
`"Error"` with AI recovery enabled, the error-state handling step invokes
`_attempt_ai_recovery` with scenario `unexpected_state` and never falls
through to transition selection — when the recovery call returns normally
the loop restarts, and when it raises the exception propagates; on an
iteration whose classified state is not `"Error"`, the step clears any
held recovery agent and proceeds. -/
theorem error_state_step_spec (recovery : RecoveryFn) (s : PilotState) :
    (s.currentState = some "Error" →
      (∀ t, error_state_step true recovery s ≠ .proceed t)
      ∧ ((recovery Scenario.unexpectedState none s).2 = none →
          error_state_step true recovery s =
            .restartLoop (recovery Scenario.unexpectedState none s).1)
      ∧ (∀ e, (recovery Scenario.unexpectedState none s).2 = some e →
          error_state_step true recovery s =
            .recoveryRaised e (recovery Scenario.unexpectedState none s).1))
    ∧ (∀ ai : Bool, s.currentState ≠ some "Error" →
        error_state_step ai recovery s = .proceed { s with aiRecoveryAgent := none }) := by
  constructor
  · intro h
    have hcond : (s.currentState == some "Error" && true) = true := by simp [h]
    refine ⟨?_, ?_, ?_⟩
    · intro t
      unfold error_state_step
      rw [if_pos hcond]
      cases hrec : (recovery Scenario.unexpectedState none s).2 <;> simp [hrec]
    · intro hrec
      unfold error_state_step
      rw [if_pos hcond]
      simp only [hrec]
    · intro e hrec
      unfold error_state_step
      rw [if_pos hcond]
      simp only [hrec]
  · intro ai h
    unfold error_state_step
    rw [if_neg]
    simp [h]

/-- Witness for C4 at concrete inputs: with a recovery behavior that
returns normally, the `"Error"` state restarts the loop, and a non-error
state proceeds with the agent cleared. -/
theorem error_state_step_spec_witness :
    error_state_step true (fun _ _ st => (st, none))
      ⟨Graph.empty, [], [], RunMode.planned, none, some ⟨some "fb"⟩, some "Error",
        none, none, false, none⟩ =
      .restartLoop ⟨Graph.empty, [], [], RunMode.planned, none, some ⟨some "fb"⟩,
        some "Error", none, none, false, none⟩
    ∧ error_state_step true (fun _ _ st => (st, none))
      ⟨Graph.empty, [], [], RunMode.planned, none, some ⟨some "fb"⟩, some "Start",
        none, none, false, none⟩ =
      .proceed ⟨Graph.empty, [], [], RunMode.planned, none, none, some "Start",
        none, none, false, none⟩ := by
  constructor
  · exact ((error_state_step_spec (fun _ _ st => (st, none)) _).1 rfl).2.1 rfl
  · exact (error_state_step_spec (fun _ _ st => (st, none)) _).2 true (by simp)

/-- C5 (counterexample): a transition raising a generic `RuntimeError`
does not always leave the engine in rollback mode — when the recovery
attempt raises `CourseCorrectionImpossible` the statement
`cls._mode = "rollback"` is never reached, so the mode stays `planned`
and an exception (recovery's, not the raw one) propagates, contrary to
the claim's unconditional "switches the run mode to rollback". -/
theorem wrapper_runtime_error_counterexample :
    wrapper (fun _ _ st => (st, some "CourseCorrectionImpossible"))
      (.raisesRuntime ⟨"tb", "line", "LeftClick"⟩)
      ⟨Graph.empty, [], [], RunMode.planned, none, none, none, none, none, false, none⟩ =
      .raised (.recoveryExc "CourseCorrectionImpossible")
        ⟨Graph.empty, [], [], RunMode.planned, some ⟨"tb", "line", "LeftClick"⟩,
          none, none, none, none, false, none⟩
    ∧ (⟨Graph.empty, [], [], RunMode.planned, some ⟨"tb", "line", "LeftClick"⟩,
          none, none, none, none, false, none⟩ : PilotState).mode ≠ RunMode.rollback :=
  ⟨rfl, by decide⟩

/-- C5 (amended): on a generic `RuntimeError` the wrapper first captures
the traceback details (`_runtime_error_details`), then invokes recovery
with scenario `runtime_error` and the captured action line; if that call
returns normally the run mode is switched to `rollback` and the wrapper
returns `None` — the raw exception is not propagated; if the recovery
call raises, its exception propagates instead and the mode is left as
recovery left it; in no case does the raw `RuntimeError` escape. -/
theorem wrapper_runtime_error_behavior (recovery : RecoveryFn) (d : RuntimeErrorDetails)
    (s : PilotState) :
    ((recovery Scenario.runtimeError (some d.actionLine)
        { s with runtimeErrorDetails := some d }).2 = none →
      wrapper recovery (.raisesRuntime d) s =
        .returned none
          { (recovery Scenario.runtimeError (some d.actionLine)
              { s with runtimeErrorDetails := some d }).1 with mode := RunMode.rollback })
    ∧ (∀ m, (recovery Scenario.runtimeError (some d.actionLine)
          { s with runtimeErrorDetails := some d }).2 = some m →
        wrapper recovery (.raisesRuntime d) s =
          .raised (.recoveryExc m)
            (recovery Scenario.runtimeError (some d.actionLine)
              { s with runtimeErrorDetails := some d }).1)
    ∧ (∀ d' t, wrapper recovery (.raisesRuntime d) s ≠ .raised (.rawRuntime d') t) := by
  refine ⟨?_, ?_, ?_⟩
  · intro hrec
    unfold wrapper
    simp only [hrec]
  · intro m hrec
    unfold wrapper
    simp only [hrec]
  · intro d' t
    unfold wrapper
    cases hrec : (recovery Scenario.runtimeError (some d.actionLine)
        { s with runtimeErrorDetails := some d }).2 <;> simp [hrec]

/-- Witness for C5's amended theorem: with a recovery behavior that
returns normally the wrapper swallows the `RuntimeError`, captures the
details and switches to rollback mode. -/
theorem wrapper_runtime_error_behavior_witness :
    wrapper (fun _ _ st => (st, none))
      (.raisesRuntime ⟨"tb", "line", "LeftClick"⟩)
      ⟨Graph.empty, [], [], RunMode.planned, none, none, none, none, none, false, none⟩ =
      .returned none
        ⟨Graph.empty, [], [], RunMode.rollback, some ⟨"tb", "line", "LeftClick"⟩,
          none, none, none, none, false, none⟩ :=
  (wrapper_runtime_error_behavior (fun _ _ st => (st, none))
    ⟨"tb", "line", "LeftClick"⟩
    ⟨Graph.empty, [], [], RunMode.planned, none, none, none, none, none, false, none⟩).1 rfl

/-- C7 (counterexample): when the first corrective action is the sentinel
`"NoActionNeeded"` response, the loop exits through `return None`, which
never reaches the `reset_feedback()` call placed after the `while` loop —
the agent's previously accumulated feedback survives the exit, contrary
to the claim that feedback is reset on every exit path. -/
theorem attempt_ai_recovery_noaction_keeps_feedback :
    (attempt_ai_recovery_loop (fun _ => .yields ⟨"NoActionNeeded", false, none⟩ .ok) 5
      ⟨some "stale feedback"⟩).1.feedback = some "stale feedback"
    ∧ (attempt_ai_recovery_loop (fun _ => .yields ⟨"NoActionNeeded", false, none⟩ .ok) 5
      ⟨some "stale feedback"⟩).2 = .noActionReturn
    ∧ (attempt_ai_recovery_loop (fun _ => .yields ⟨"NoActionNeeded", false, none⟩ .ok) 5
      ⟨some "stale feedback"⟩).1.feedback ≠ none := by
  refine ⟨?_, ?_, ?_⟩ <;> decide

/-- C7 (amended): the feedback accumulated on the recovery agent is reset
when the attempt loop exits by falling through — a successfully executed
action, an unexpected exception breaking the loop with an action present,
or exhaustion of the attempt budget — but not when the loop exits through
the sentinel no-action early return or a raised
`CourseCorrectionImpossible`, on which paths the accumulated feedback
persists. -/
theorem attempt_ai_recovery_reset_on_loop_exit (script : Nat → Attempt) (n : Nat)
    (ag : Agent) :
    (attempt_ai_recovery_loop script n ag).2 = .finished →
      (attempt_ai_recovery_loop script n ag).1.feedback = none := by
  unfold attempt_ai_recovery_loop
  rcases h : runAttempts script 0 n ag with ⟨ag', le⟩
  cases le <;> simp

/-- Witness for C7's amended theorem: a successfully executed action
(loop `break`) reaches the reset, clearing previously added feedback. -/
theorem attempt_ai_recovery_reset_on_loop_exit_witness :
    (attempt_ai_recovery_loop (fun _ => .yields ⟨"LeftClick(target).do()", false, none⟩ .ok) 3
      ⟨some "earlier feedback"⟩).1.feedback = none :=
  attempt_ai_recovery_reset_on_loop_exit
    (fun _ => .yields ⟨"LeftClick(target).do()", false, none⟩ .ok) 3
    ⟨some "earlier feedback"⟩ (by decide)

end ScreenPilot

namespace ClientActor

/-- C6: over an initiated websocket, the acknowledgement is awaited with a
90-second timeout; iff it equals `"OK"` the second message is awaited with
the same 90-second timeout (a non-`"OK"` acknowledgement makes the result
independent of the second message) and the parsed structured result is
returned; a non-matching token raises `RuntimeError("Received ACK != OK")`
while a timeout of either phase raises `RuntimeError("The ack message did
not arrive.")`, and the two messages are distinct, so the caller can tell
the failures apart. -/
theorem perform_action_ws_protocol (parse : String → Option PerformActionResponse)
    (ev1 ev2 : RecvEvent) :
    (90 < ev1.delay → perform_action_ws parse true ev1 ev2 = .runtimeError ackTimeoutMsg)
    ∧ (ev1.delay ≤ 90 → ev1.payload ≠ "OK" →
        perform_action_ws parse true ev1 ev2 = .runtimeError ackMismatchMsg)
    ∧ (ev1.payload ≠ "OK" → ∀ ev2' : RecvEvent,
        perform_action_ws parse true ev1 ev2 = perform_action_ws parse true ev1 ev2')
    ∧ (ev1.delay ≤ 90 → ev1.payload = "OK" → 90 < ev2.delay →
        perform_action_ws parse true ev1 ev2 = .runtimeError ackTimeoutMsg)
    ∧ (ev1.delay ≤ 90 → ev1.payload = "OK" → ev2.delay ≤ 90 →
        perform_action_ws parse true ev1 ev2 =
          (match parse ev2.payload with
            | some r => .ok r
            | none => .parseError))
    ∧ ackMismatchMsg ≠ ackTimeoutMsg := by
  refine ⟨?_, ?_, ?_, ?_, ?_, by decide⟩
  · intro h1
    have hw1 : wait_for 90 ev1 = none := by
      unfold wait_for
      rw [if_neg (Nat.not_le.mpr h1)]
    simp [perform_action_ws, hw1]
  · intro h1 h2
    have hw1 : wait_for 90 ev1 = some ev1.payload := by
      unfold wait_for
      rw [if_pos h1]
    simp [perform_action_ws, hw1, h2]
  · intro h2 ev2'
    by_cases h1 : ev1.delay ≤ 90
    · have hw1 : wait_for 90 ev1 = some ev1.payload := by
        unfold wait_for
        rw [if_pos h1]
      simp [perform_action_ws, hw1, h2]
    · have hw1 : wait_for 90 ev1 = none := by
        unfold wait_for
        rw [if_neg h1]
      simp [perform_action_ws, hw1]
  · intro h1 h2 h3
    have hw1 : wait_for 90 ev1 = some ev1.payload := by
      unfold wait_for
      rw [if_pos h1]
    have hw2 : wait_for 90 ev2 = none := by
      unfold wait_for
      rw [if_neg (Nat.not_le.mpr h3)]
    simp [perform_action_ws, hw1, hw2, h2]
  · intro h1 h2 h3
    have hw1 : wait_for 90 ev1 = some ev1.payload := by
      unfold wait_for
      rw [if_pos h1]
    have hw2 : wait_for 90 ev2 = some ev2.payload := by
      unfold wait_for
      rw [if_pos h3]
    simp [perform_action_ws, hw1, hw2, h2]

/-- Witness for C6 at concrete inputs: a late acknowledgement reports the
timeout failure, a prompt non-`"OK"` acknowledgement reports the mismatch
failure, and a prompt `"OK"` followed by a prompt result message returns
the parsed response. -/
theorem perform_action_ws_protocol_witness :
    perform_action_ws (fun _ => none) true ⟨120, "OK"⟩ ⟨0, "r"⟩ =
      .runtimeError ackTimeoutMsg
    ∧ perform_action_ws (fun _ => none) true ⟨3, "NACK"⟩ ⟨0, "r"⟩ =
      .runtimeError ackMismatchMsg
    ∧ perform_action_ws (fun s => some ⟨none, "completed", none, some s, none⟩) true
        ⟨3, "OK"⟩ ⟨7, "payload"⟩ =
      .ok ⟨none, "completed", none, some "payload", none⟩ := by
  refine ⟨?_, ?_, ?_⟩
  · exact (perform_action_ws_protocol (fun _ => none) ⟨120, "OK"⟩ ⟨0, "r"⟩).1
      (by decide)
  · exact (perform_action_ws_protocol (fun _ => none) ⟨3, "NACK"⟩ ⟨0, "r"⟩).2.1
      (by decide) (by decide)
  · exact (perform_action_ws_protocol (fun s => some ⟨none, "completed", none, some s, none⟩)
      ⟨3, "OK"⟩ ⟨7, "payload"⟩).2.2.2.2.1 (by decide) rfl (by decide)

end ClientActor

namespace Kwargs

/-- C10: the argument filtering used by the transition `wrapper` and by
`_evaluate_goal_function` passes exactly the caller-supplied keyword
arguments whose names appear in the callable's signature — declared
keywords are kept with their values, undeclared keywords are silently
dropped — and invoking the callable on the filtered keyword arguments can
never fail with an unexpected-keyword error. -/
theorem filtered_kwargs_spec (supported_params : List String)
    (kwargs : List (String × String)) :
    (∀ kv ∈ filtered_kwargs supported_params kwargs, kv.1 ∈ supported_params)
    ∧ (∀ kv ∈ kwargs, kv.1 ∈ supported_params →
        kv ∈ filtered_kwargs supported_params kwargs)
    ∧ (∀ kv ∈ kwargs, kv.1 ∉ supported_params →
        kv ∉ filtered_kwargs supported_params kwargs)
    ∧ invoke_with_kwargs supported_params (filtered_kwargs supported_params kwargs) =
        .ok () := by
  refine ⟨?_, ?_, ?_, ?_⟩
  · intro kv hkv
    simpa using (List.mem_filter.mp hkv).2
  · intro kv hkv h
    exact List.mem_filter.mpr ⟨hkv, by simpa using h⟩
  · intro kv _ h hmem
    exact h (by simpa using (List.mem_filter.mp hmem).2)
  · unfold invoke_with_kwargs
    have hnone : (filtered_kwargs supported_params kwargs).find?
        (fun kv => !(decide (kv.1 ∈ supported_params))) = none := by
      apply List.find?_eq_none.mpr
      intro kv hkv
      simpa using (List.mem_filter.mp hkv).2
    rw [hnone]

/-- Witness for C10 at concrete inputs: with declared parameters
`["amount", "category"]` and caller arguments including the undeclared
`"note"`, the declared pair is kept, the undeclared pair is dropped, and
the invocation on the filtered arguments succeeds. -/
theorem filtered_kwargs_spec_witness :
    ("amount", "12") ∈ filtered_kwargs ["amount", "category"]
      [("amount", "12"), ("note", "x")]
    ∧ ("note", "x") ∉ filtered_kwargs ["amount", "category"]
      [("amount", "12"), ("note", "x")]
    ∧ invoke_with_kwargs ["amount", "category"]
        (filtered_kwargs ["amount", "category"] [("amount", "12"), ("note", "x")]) =
      .ok () := by
  refine ⟨?_, ?_, ?_⟩
  · exact (filtered_kwargs_spec ["amount", "category"]
      [("amount", "12"), ("note", "x")]).2.1 ("amount", "12") (by simp) (by simp)
  · exact (filtered_kwargs_spec ["amount", "category"]
      [("amount", "12"), ("note", "x")]).2.2.1 ("note", "x") (by simp) (by simp)
  · exact (filtered_kwargs_spec ["amount", "category"]
      [("amount", "12"), ("note", "x")]).2.2.2

end Kwargs
